import Mathlib

/-!
Shallow embedding of the clinical-decision-support backend (tanishra/cdss),
covering patient management, the diagnosis workflow with RAG evidence
retrieval, the drug-interaction checker, the lab parser, the rate limiter
and several route-level helpers, together with theorems settling the
specification claims about them.
-/

namespace CDSS

/-! ### String helpers

`isSubstring needle hay` models Python's `needle in hay` on strings
(contiguous-substring containment).  `strUpper`/`strLower` model
`str.upper()`/`str.lower()` via per-character case mapping. -/

def isSubstring (needle : List Char) : List Char → Bool
  | [] => needle.isEmpty
  | c :: t => needle.isPrefixOf (c :: t) || isSubstring needle t

def strContains (hay needle : String) : Bool :=
  isSubstring needle.data hay.data

def strLower (s : String) : String :=
  ⟨s.data.map Char.toLower⟩

def strUpper (s : String) : String :=
  ⟨s.data.map Char.toUpper⟩

/-! ### Patient service (`app/services/patient_service.py`)

A `Patient` row keeps the columns the claims are about; the database is a
list of rows.  `createPatient` embeds `PatientService.create_patient`
(duplicate-MRN check against the whole table, then insert and commit) and
`getPatient` embeds `PatientService.get_patient` (filter on id, owning
doctor and active flag). -/

structure Patient where
  id : String
  doctor_id : String
  mrn : String
  is_active : Bool
  deriving Repr, DecidableEq

/-- `PatientService._validate_unique_mrn`: any row with the requested MRN,
regardless of owning doctor, makes the check fail. -/
def validateUniqueMrn (db : List Patient) (mrn : String) : Bool :=
  (db.find? (fun p => p.mrn == mrn)).isSome

/-- `PatientService.create_patient`: reject when the MRN exists anywhere,
otherwise persist a new row owned by the calling doctor (the column default
makes it active).  Returns the call's outcome together with the table after
the call, so persistence is explicit. -/
def createPatient (db : List Patient) (newId doctorId mrn : String) :
    Except String Patient × List Patient :=
  if validateUniqueMrn db mrn then
    (Except.error ("Patient with MRN " ++ mrn ++ " already exists"), db)
  else
    let patient : Patient := ⟨newId, doctorId, mrn, true⟩
    (Except.ok patient, db ++ [patient])

/-- `PatientService.get_patient`: row with matching id, matching owning
doctor and `is_active == True`, or absent. -/
def getPatient (db : List Patient) (patientId doctorId : String) : Option Patient :=
  db.find? (fun p => p.id == patientId && p.doctor_id == doctorId && p.is_active)

/-! ### Diagnosis workflow (`app/services/diagnosis_service.py`)

`createDiagnosis` embeds `DiagnosisService.create_diagnosis`.  The external
collaborators are passed in as outcomes: `ragOutcome` is what
`RAGService.retrieve_evidence` would do (`Except.error` models the raised
`RAGServiceError`), `llmOutcome` what the LLM call would do.  The
configuration flag `ENABLE_RAG` is the `ragEnabled` argument.  State is the
pair of committed tables (diagnoses, citations); an error leaves it
untouched (session rollback). -/

structure EvidenceItem where
  title : String
  evidence_type : String
  deriving Repr, DecidableEq

structure EvidenceData where
  evidence : List EvidenceItem
  deriving Repr, DecidableEq

structure LLMResult where
  differential_diagnoses : List String
  clinical_reasoning : String
  deriving Repr, DecidableEq

structure Diag where
  patient_id : String
  doctor_id : String
  rag_enabled : Bool
  citation_count : Nat
  evidence_used : Option (List EvidenceItem)
  differential_diagnoses : List String
  deriving Repr, DecidableEq

structure Citation where
  diagnosis_name : String
  title : String
  deriving Repr, DecidableEq

structure DiagState where
  diagnoses : List Diag
  citations : List Citation
  deriving Repr, DecidableEq

/-- `settings.MAX_CITATIONS_PER_DIAGNOSIS` (config default). -/
def MAX_CITATIONS_PER_DIAGNOSIS : Nat := 3

/-- `DiagnosisService._create_citation_records`: for each of the top 3
differential diagnoses, one citation per evidence article among the first
`MAX_CITATIONS_PER_DIAGNOSIS`. -/
def createCitationRecords (evidence : List EvidenceItem) (llm : LLMResult) :
    List Citation :=
  (llm.differential_diagnoses.take 3).flatMap fun dxName =>
    (evidence.take MAX_CITATIONS_PER_DIAGNOSIS).map fun article =>
      ⟨dxName, article.title⟩

/-- `DiagnosisService.create_diagnosis`.  Step 1 validates the patient with
the same ownership filter as `getPatient`; step 5 retrieves evidence when
RAG is enabled, catching a `RAGServiceError` and continuing with
`evidence_data = None`; the LLM call then runs with or without evidence,
the record is built (`rag_enabled` true iff evidence is present,
`citation_count` starts at 0), citations are created only when evidence
was used, and everything is committed. -/
def createDiagnosis (patients : List Patient) (st : DiagState)
    (patientId doctorId : String) (ragEnabled : Bool)
    (ragOutcome : Except String EvidenceData)
    (llmOutcome : Except String LLMResult) : Except String (Diag × DiagState) :=
  match getPatient patients patientId doctorId with
  | none => Except.error ("Failed to create diagnosis: Patient not found: " ++ patientId)
  | some _ =>
    let evidenceData : Option EvidenceData :=
      if ragEnabled then
        match ragOutcome with
        | Except.ok ev => some ev
        | Except.error _ => none
      else none
    match llmOutcome with
    | Except.error e => Except.error ("Failed to generate diagnosis: " ++ e)
    | Except.ok llm =>
      let diag : Diag :=
        { patient_id := patientId
          doctor_id := doctorId
          rag_enabled := evidenceData.isSome
          citation_count := 0
          evidence_used := evidenceData.map (fun ed => ed.evidence.take 5)
          differential_diagnoses := llm.differential_diagnoses }
      match evidenceData with
      | some ed =>
        if ed.evidence.isEmpty then
          Except.ok (diag, ⟨st.diagnoses ++ [diag], st.citations⟩)
        else
          let cits := createCitationRecords ed.evidence llm
          let diag2 := { diag with citation_count := cits.length }
          Except.ok (diag2, ⟨st.diagnoses ++ [diag2], st.citations ++ cits⟩)
      | none => Except.ok (diag, ⟨st.diagnoses ++ [diag], st.citations⟩)

/-! ### Drug interaction service (`app/services/drug_interaction_service.py`)

The static `INTERACTIONS` table, allergy matching (exact, substring, or
same drug class) and the two-directional pairwise check, embedded as pure
functions over association lists. -/

structure Warning where
  severity : String
  wtype : String
  drug1 : Option String
  drug2 : Option String
  message : String
  deriving Repr, DecidableEq

structure InteractionResult where
  has_interactions : Bool
  warnings : List Warning
  safe_to_prescribe : Bool
  deriving Repr, DecidableEq

/-- `DrugInteractionService.INTERACTIONS`. -/
def INTERACTIONS : List (String × List (String × String)) :=
  [ ("warfarin",
      [ ("aspirin", "Increased bleeding risk"),
        ("ibuprofen", "Increased bleeding risk"),
        ("naproxen", "Increased bleeding risk") ]),
    ("aspirin",
      [ ("warfarin", "Increased bleeding risk"),
        ("ibuprofen", "Increased GI bleeding risk") ]),
    ("metformin", [ ("alcohol", "Risk of lactic acidosis") ]),
    ("atorvastatin", [ ("grapefruit", "Increased statin levels") ]),
    ("lisinopril", [ ("potassium", "Risk of hyperkalemia") ]),
    ("amoxicillin", [ ("methotrexate", "Increased methotrexate toxicity") ]) ]

/-- `DrugInteractionService._same_drug_class`: both names are members of
one of the hardcoded drug classes. -/
def sameDrugClass (med1 med2 : String) : Bool :=
  let drug_classes : List (String × List String) :=
    [ ("penicillin", ["amoxicillin", "ampicillin", "penicillin"]),
      ("cephalosporin", ["cephalexin", "ceftriaxone"]),
      ("nsaid", ["ibuprofen", "naproxen", "aspirin"]),
      ("statin", ["atorvastatin", "simvastatin", "rosuvastatin"]) ]
  drug_classes.any fun cls => cls.2.contains med1 && cls.2.contains med2

/-- `DrugInteractionService._check_allergies`: first allergy that matches
the medication exactly, as a substring of it, or by drug class (all
case-insensitive); returned with its original casing. -/
def checkAllergies (medication : String) (allergies : List String) : Option String :=
  let medLower := strLower medication
  allergies.find? fun allergy =>
    let allergyLower := strLower allergy
    medLower == allergyLower
      || strContains medLower allergyLower
      || sameDrugClass medLower allergyLower

/-- Interaction-table lookup: `INTERACTIONS[a][b]` when both keys exist. -/
def interactionLookup (a b : String) : Option String :=
  match INTERACTIONS.find? (fun e => e.1 == a) with
  | none => none
  | some (_, tbl) =>
    match tbl.find? (fun m => m.1 == b) with
    | none => none
    | some (_, msg) => some msg

/-- `DrugInteractionService.check_interactions`: allergy warnings
(CRITICAL) first, then forward new-vs-current interactions, then reverse
current-vs-new ones (both MODERATE); `has_interactions` is warning-list
non-emptiness and `safe_to_prescribe` is the absence of any CRITICAL
warning. -/
def check_interactions (newMedication : String)
    (currentMedications allergies : List String) : InteractionResult :=
  let allergyWarnings : List Warning :=
    match checkAllergies newMedication allergies with
    | some a =>
      [⟨"CRITICAL", "allergy", none, none, "Patient is allergic to " ++ a⟩]
    | none => []
  let newMedLower := strLower newMedication
  let forward : List Warning :=
    currentMedications.filterMap fun currentMed =>
      (interactionLookup newMedLower (strLower currentMed)).map fun msg =>
        ⟨"MODERATE", "drug_interaction", some newMedication, some currentMed, msg⟩
  let reverse : List Warning :=
    currentMedications.filterMap fun currentMed =>
      (interactionLookup (strLower currentMed) newMedLower).map fun msg =>
        ⟨"MODERATE", "drug_interaction", some currentMed, some newMedication, msg⟩
  let warnings := allergyWarnings ++ forward ++ reverse
  { has_interactions := warnings.length > 0
    warnings := warnings
    safe_to_prescribe := !(warnings.any fun w => w.severity == "CRITICAL") }

/-! ### Lab parser service (`app/services/lab_parser_service.py`)

Reference ranges, abnormality detection with relative-deviation severity,
and the clinical-interpretation rule chain.  Lab values are rationals. -/

structure RefRange where
  rmin : ℚ
  rmax : ℚ
  unit : String
  name : String
  deriving Repr, DecidableEq

/-- `LabParserService.REFERENCE_RANGES`. -/
def REFERENCE_RANGES : List (String × RefRange) :=
  [ ("wbc", ⟨4.5, 11.0, "10^3/µL", "White Blood Cells"⟩),
    ("rbc", ⟨4.5, 5.9, "10^6/µL", "Red Blood Cells"⟩),
    ("hemoglobin", ⟨13.5, 17.5, "g/dL", "Hemoglobin"⟩),
    ("hematocrit", ⟨38.8, 50.0, "%", "Hematocrit"⟩),
    ("platelets", ⟨150, 400, "10^3/µL", "Platelets"⟩),
    ("glucose", ⟨70, 100, "mg/dL", "Glucose"⟩),
    ("sodium", ⟨136, 145, "mEq/L", "Sodium"⟩),
    ("potassium", ⟨3.5, 5.0, "mEq/L", "Potassium"⟩),
    ("chloride", ⟨98, 107, "mEq/L", "Chloride"⟩),
    ("co2", ⟨23, 29, "mEq/L", "CO2"⟩),
    ("bun", ⟨7, 20, "mg/dL", "BUN"⟩),
    ("creatinine", ⟨0.7, 1.3, "mg/dL", "Creatinine"⟩),
    ("calcium", ⟨8.5, 10.5, "mg/dL", "Calcium"⟩),
    ("alt", ⟨7, 56, "U/L", "ALT"⟩),
    ("ast", ⟨10, 40, "U/L", "AST"⟩),
    ("alkaline_phosphatase", ⟨44, 147, "U/L", "Alkaline Phosphatase"⟩),
    ("bilirubin_total", ⟨0.1, 1.2, "mg/dL", "Total Bilirubin"⟩),
    ("albumin", ⟨3.5, 5.5, "g/dL", "Albumin"⟩),
    ("total_cholesterol", ⟨0, 200, "mg/dL", "Total Cholesterol"⟩),
    ("ldl", ⟨0, 100, "mg/dL", "LDL Cholesterol"⟩),
    ("hdl", ⟨40, 999, "mg/dL", "HDL Cholesterol"⟩),
    ("triglycerides", ⟨0, 150, "mg/dL", "Triglycerides"⟩) ]

def findRange (testKey : String) : Option RefRange :=
  (REFERENCE_RANGES.find? (fun e => e.1 == testKey)).map (·.2)

structure Abnormality where
  test : String
  value : ℚ
  unit : String
  status : String
  severity : String
  deriving Repr, DecidableEq

/-- `LabParserService._get_severity`: relative deviation from the violated
bound; above 0.5 CRITICAL, above 0.2 MODERATE, otherwise MILD. -/
def getSeverity (r : RefRange) (value : ℚ) (direction : String) : String :=
  let deviation : ℚ :=
    if direction == "low" then (r.rmin - value) / r.rmin
    else (value - r.rmax) / r.rmax
  if deviation > 0.5 then "CRITICAL"
  else if deviation > 0.2 then "MODERATE"
  else "MILD"

/-- `LabParserService._check_abnormal`: strictly below the minimum is LOW,
strictly above the maximum is HIGH, otherwise no abnormality. -/
def checkAbnormal (testKey : String) (value : ℚ) : Option Abnormality :=
  match findRange testKey with
  | none => none
  | some r =>
    if value < r.rmin then
      some ⟨r.name, value, r.unit, "LOW", getSeverity r value "low"⟩
    else if value > r.rmax then
      some ⟨r.name, value, r.unit, "HIGH", getSeverity r value "high"⟩
    else none

/-- One rule of `LabParserService.get_clinical_interpretation`'s
`if`/`elif` chain.  The ALT/AST condition keeps Python's operator
precedence: `"ALT" in test or ("AST" in test and status == "HIGH")`. -/
def interpretAbnormality (a : Abnormality) : Option String :=
  let test := a.test
  let status := a.status
  if strContains (strUpper test) "WBC" && status == "HIGH" then
    some "Elevated WBC suggests infection or inflammation"
  else if strContains (strUpper test) "WBC" && status == "LOW" then
    some "Low WBC may indicate immunosuppression or bone marrow issue"
  else if strContains test "Hemoglobin" && status == "LOW" then
    some "Low hemoglobin indicates anemia"
  else if strContains test "Glucose" && status == "HIGH" then
    some "Elevated glucose suggests diabetes or impaired glucose tolerance"
  else if strContains test "Creatinine" && status == "HIGH" then
    some "Elevated creatinine may indicate kidney dysfunction"
  else if strContains test "ALT" || (strContains test "AST" && status == "HIGH") then
    some "Elevated liver enzymes suggest hepatic dysfunction"
  else if strContains test "Potassium" && status == "HIGH" then
    some "Hyperkalemia - cardiac monitoring recommended"
  else if strContains test "Potassium" && status == "LOW" then
    some "Hypokalemia - may cause cardiac arrhythmias"
  else none

/-- `LabParserService.get_clinical_interpretation`. -/
def getClinicalInterpretation (abnormalities : List Abnormality) : String :=
  if abnormalities.isEmpty then "All lab values are within normal limits."
  else
    let interpretations := abnormalities.filterMap interpretAbnormality
    if interpretations.isEmpty then
      "Abnormal values detected - clinical correlation advised."
    else
      String.intercalate "; " interpretations

/-! ### Route helpers (`app/api/routes.py`)

Confidence-level classification, the diagnosis-search confidence filter,
and the diagnosis-comparison trend computation. -/

/-- One differential-diagnosis entry as the route helpers see it: an
optional confidence (Python's `.get("confidence", 0)` defaults to 0). -/
structure DDEntry where
  diagnosis : String
  confidence : Option ℚ
  deriving Repr, DecidableEq

/-- `_calculate_confidence_level`. -/
def calculateConfidenceLevel (differential_diagnoses : List DDEntry) : String :=
  match differential_diagnoses with
  | [] => "Low"
  | top :: _ =>
    let topConfidence := top.confidence.getD 0
    if topConfidence ≥ 0.75 then "High"
    else if topConfidence ≥ 0.5 then "Medium"
    else "Low"

/-- The confidence-level filter of `search_diagnoses`: SQL `LIKE`
patterns over the stringified `differential_diagnoses` JSON column,
matching the literal texts `"confidence": 0.7` / `"confidence": 0.5`. -/
def confidenceLevelFilter (level : String) (serialized : String) : Bool :=
  if level == "High" then
    strContains serialized "\"confidence\": 0.7"
  else if level == "Medium" then
    strContains serialized "\"confidence\": 0.5"
      && !strContains serialized "\"confidence\": 0.7"
  else if level == "Low" then
    !strContains serialized "\"confidence\": 0.5"
  else true

/-- Decimal rendering of a confidence given in hundredths, as the JSON
serializer writes it: `85 ↦ "0.85"`, `70 ↦ "0.7"`. -/
def renderConfidence (hundredths : Nat) : String :=
  if hundredths % 10 == 0 then "0." ++ toString (hundredths / 10)
  else "0." ++ toString (hundredths / 10) ++ toString (hundredths % 10)

/-- JSON serialization of a differential-diagnoses list as stored in the
`differential_diagnoses` column (name and confidence fields). -/
def serializeDifferentials (entries : List (String × Nat)) : String :=
  "[" ++
    String.intercalate ", "
      (entries.map fun e =>
        "\x7b\"diagnosis\": \"" ++ e.1 ++ "\", \"confidence\": "
          ++ renderConfidence e.2 ++ "\x7d")
    ++ "]"

/-- Symptom-change events of `_calculate_diagnosis_changes` for one
consecutive pair: a `"new"` event when the current diagnosis has symptom
names absent from the previous one, then a `"resolved"` event when the
previous has names absent from the current. -/
def pairEvents (prevSymptoms currSymptoms : List String) : List String :=
  let newSymptoms := currSymptoms.filter fun n => !prevSymptoms.contains n
  let resolved := prevSymptoms.filter fun n => !currSymptoms.contains n
  (if newSymptoms.isEmpty then [] else ["new"])
    ++ (if resolved.isEmpty then [] else ["resolved"])

/-- All symptom-change events over the chronologically ordered list. -/
def symptomChangeEvents : List (List String) → List String
  | [] => []
  | [_] => []
  | a :: b :: rest => pairEvents a b ++ symptomChangeEvents (b :: rest)

/-- The `overall_trend` computation of `_calculate_diagnosis_changes`:
with no symptom-change events the trend is `"stable"`; otherwise resolved
events against new events. -/
def overallTrend (diagnoses : List (List String)) : String :=
  let events := symptomChangeEvents diagnoses
  if events.length > 0 then
    let resolvedCount := (events.filter (fun e => e == "resolved")).length
    let newCount := (events.filter (fun e => e == "new")).length
    if resolvedCount > newCount then "improving"
    else if newCount > resolvedCount then "worsening"
    else "stable"
  else "stable"

/-! ### Rate limiter (`app/core/cache.py`)

Redis is modelled as the counter entry for the identifier's key: absent,
or a `(count, ttl)` pair set by `SETEX`/`INCR`; `RedisState.down` models
the branch where any Redis operation raises. -/

inductive RedisState where
  | ok (entry : Option (Nat × Nat))
  | down
  deriving Repr, DecidableEq

/-- `RateLimiter.is_allowed` for one identifier: a missing counter is set
to 1 with a window-length expiry and the request is allowed; a counter at
or above the maximum denies the request; otherwise the counter is
incremented and the request is allowed.  Any internal error fails open. -/
def isAllowed (maxRequests window : Nat) : RedisState → Bool × RedisState
  | RedisState.down => (true, RedisState.down)
  | RedisState.ok none => (true, RedisState.ok (some (1, window)))
  | RedisState.ok (some (c, t)) =>
    if c ≥ maxRequests then (false, RedisState.ok (some (c, t)))
    else (true, RedisState.ok (some (c + 1, t)))

/-- `n` consecutive `is_allowed` calls within one window (no expiry
elapses); returns the per-request outcomes and the final state. -/
def runRequests (maxRequests window : Nat) : Nat → RedisState → List Bool × RedisState
  | 0, st => ([], st)
  | n + 1, st =>
    let (b, st') := isAllowed maxRequests window st
    let (bs, st'') := runRequests maxRequests window n st'
    (b :: bs, st'')

end CDSS

namespace CDSS

theorem validateUniqueMrn_iff (db : List Patient) (mrn : String) :
    validateUniqueMrn db mrn = true ↔ ∃ p ∈ db, p.mrn = mrn := by
  unfold validateUniqueMrn
  rw [List.find?_isSome]
  constructor
  · rintro ⟨p, hp, hm⟩
    exact ⟨p, hp, by simpa using hm⟩
  · rintro ⟨p, hp, hm⟩
    exact ⟨p, hp, by simpa using hm⟩

/-- C1: a create-patient call fails with a domain error and persists no row
whenever any existing Patient row — regardless of owning doctor — already
carries the requested MRN; otherwise it persists exactly one new Patient
owned by the calling doctor. -/
theorem create_patient_mrn_globally_unique
    (db : List Patient) (newId doctorId mrn : String) :
    ((∃ p ∈ db, p.mrn = mrn) →
      (∃ e, (createPatient db newId doctorId mrn).1 = Except.error e) ∧
        (createPatient db newId doctorId mrn).2 = db) ∧
    ((∀ p ∈ db, p.mrn ≠ mrn) →
      (createPatient db newId doctorId mrn).1 = Except.ok ⟨newId, doctorId, mrn, true⟩ ∧
        (createPatient db newId doctorId mrn).2 = db ++ [⟨newId, doctorId, mrn, true⟩]) := by
  constructor
  · intro hex
    have hv : validateUniqueMrn db mrn = true := (validateUniqueMrn_iff db mrn).mpr hex
    simp [createPatient, hv]
  · intro hall
    have hv : validateUniqueMrn db mrn = false := by
      cases h : validateUniqueMrn db mrn
      · rfl
      · obtain ⟨p, hp, hm⟩ := (validateUniqueMrn_iff db mrn).mp h
        exact absurd hm (hall p hp)
    simp [createPatient, hv]

/-- C1 witness: Doctor A creates MRN001, then Doctor B's attempt at the
same MRN is rejected and leaves the table unchanged. -/
theorem create_patient_mrn_globally_unique_witness :
    (∃ e, (createPatient (createPatient [] "patient-1" "doctor-A" "MRN001").2
        "patient-2" "doctor-B" "MRN001").1 = Except.error e) ∧
      (createPatient (createPatient [] "patient-1" "doctor-A" "MRN001").2
          "patient-2" "doctor-B" "MRN001").2 =
        (createPatient [] "patient-1" "doctor-A" "MRN001").2 :=
  (create_patient_mrn_globally_unique
      (createPatient [] "patient-1" "doctor-A" "MRN001").2
      "patient-2" "doctor-B" "MRN001").1 (by decide)

/-- C2: a get-patient call returns a record exactly when an active patient
with the requested id is owned by the requesting doctor, and anything it
returns is such a record — a doctor never receives another doctor's
patient. -/
theorem get_patient_access_control (db : List Patient) (pid did : String) :
    (∀ p, getPatient db pid did = some p →
      p ∈ db ∧ p.id = pid ∧ p.doctor_id = did ∧ p.is_active = true) ∧
    ((∃ p, getPatient db pid did = some p) ↔
      ∃ p ∈ db, p.id = pid ∧ p.doctor_id = did ∧ p.is_active = true) := by
  constructor
  · intro p hp
    have hmem := List.mem_of_find?_eq_some hp
    have hpred := List.find?_some hp
    simp only [Bool.and_eq_true, beq_iff_eq] at hpred
    exact ⟨hmem, hpred.1.1, hpred.1.2, hpred.2⟩
  · constructor
    · rintro ⟨p, hp⟩
      have hmem := List.mem_of_find?_eq_some hp
      have hpred := List.find?_some hp
      simp only [Bool.and_eq_true, beq_iff_eq] at hpred
      exact ⟨p, hmem, hpred.1.1, hpred.1.2, hpred.2⟩
    · rintro ⟨p, hp, h1, h2, h3⟩
      have hs : (getPatient db pid did).isSome := by
        unfold getPatient
        rw [List.find?_isSome]
        exact ⟨p, hp, by simp [h1, h2, h3]⟩
      obtain ⟨q, hq⟩ := Option.isSome_iff_exists.mp hs
      exact ⟨q, hq⟩

/-- C2 witness: the owning doctor retrieves their active patient, and the
record returned is that patient's row. -/
theorem get_patient_access_control_witness :
    (⟨"patient-1", "doctor-A", "MRN001", true⟩ : Patient) ∈
        ([⟨"patient-1", "doctor-A", "MRN001", true⟩] : List Patient) ∧
      ("patient-1" : String) = "patient-1" ∧ ("doctor-A" : String) = "doctor-A" ∧
      true = true :=
  (get_patient_access_control [⟨"patient-1", "doctor-A", "MRN001", true⟩]
      "patient-1" "doctor-A").1 ⟨"patient-1", "doctor-A", "MRN001", true⟩ (by decide)

/-- C3: with RAG enabled, a failing evidence-retrieval step is caught and
the diagnosis workflow continues without evidence: the LLM result is still
persisted and committed as a Diagnosis row with `rag_enabled = false`, no
evidence and no citations, instead of the request failing. -/
theorem rag_failure_degrades_gracefully
    (patients : List Patient) (st : DiagState) (pid did err : String)
    (llm : LLMResult) (p : Patient)
    (hp : getPatient patients pid did = some p) :
    ∃ d : Diag,
      createDiagnosis patients st pid did true (Except.error err) (Except.ok llm) =
          Except.ok (d, ⟨st.diagnoses ++ [d], st.citations⟩) ∧
        d.rag_enabled = false ∧ d.citation_count = 0 ∧ d.evidence_used = none ∧
        d.differential_diagnoses = llm.differential_diagnoses := by
  refine ⟨⟨pid, did, false, 0, none, llm.differential_diagnoses⟩, ?_, rfl, rfl, rfl, rfl⟩
  simp [createDiagnosis, hp]

/-- C3 witness: a concrete RAG failure still produces a committed
no-evidence diagnosis. -/
theorem rag_failure_degrades_gracefully_witness :
    ∃ d : Diag,
      createDiagnosis [⟨"patient-1", "doctor-A", "MRN001", true⟩] ⟨[], []⟩
          "patient-1" "doctor-A" true
          (Except.error "Evidence retrieval failed: timeout")
          (Except.ok ⟨["Influenza", "Common cold"], "clinical reasoning"⟩) =
          Except.ok (d, ⟨[] ++ [d], []⟩) ∧
        d.rag_enabled = false ∧ d.citation_count = 0 ∧ d.evidence_used = none ∧
        d.differential_diagnoses = ["Influenza", "Common cold"] :=
  rag_failure_degrades_gracefully [⟨"patient-1", "doctor-A", "MRN001", true⟩]
    ⟨[], []⟩ "patient-1" "doctor-A" "Evidence retrieval failed: timeout"
    ⟨["Influenza", "Common cold"], "clinical reasoning"⟩
    ⟨"patient-1", "doctor-A", "MRN001", true⟩ (by decide)

theorem check_interactions_fields (newMed : String) (cur alg : List String) :
    ∃ W, check_interactions newMed cur alg =
      { has_interactions := W.length > 0
        warnings := W
        safe_to_prescribe := !(W.any fun w => w.severity == "CRITICAL") } :=
  ⟨_, rfl⟩

/-- C4: `safe_to_prescribe` is false exactly when some warning is CRITICAL
and `has_interactions` holds exactly when warnings are present; aspirin
against current medication warfarin yields interactions with a MODERATE
drug-interaction warning naming both drugs, and aspirin against an aspirin
allergy yields a CRITICAL warning with `safe_to_prescribe = false`. -/
theorem check_interactions_spec :
    (∀ newMed currentMeds allergies,
      ((check_interactions newMed currentMeds allergies).safe_to_prescribe = false ↔
        ∃ w ∈ (check_interactions newMed currentMeds allergies).warnings,
          w.severity = "CRITICAL") ∧
      ((check_interactions newMed currentMeds allergies).has_interactions = true ↔
        (check_interactions newMed currentMeds allergies).warnings ≠ [])) ∧
    ((check_interactions "aspirin" ["warfarin"] []).has_interactions = true ∧
      ∃ w ∈ (check_interactions "aspirin" ["warfarin"] []).warnings,
        w.severity = "MODERATE" ∧ w.wtype = "drug_interaction" ∧
          w.drug1 = some "aspirin" ∧ w.drug2 = some "warfarin") ∧
    ((check_interactions "aspirin" [] ["aspirin"]).safe_to_prescribe = false ∧
      ∃ w ∈ (check_interactions "aspirin" [] ["aspirin"]).warnings,
        w.severity = "CRITICAL" ∧ w.wtype = "allergy") := by
  refine ⟨?_, by decide, by decide⟩
  intro newMed currentMeds allergies
  obtain ⟨W, hW⟩ := check_interactions_fields newMed currentMeds allergies
  rw [hW]
  constructor
  · simp [List.any_eq_true]
  · simp [List.length_pos]

/-- C4 witness: the general equivalences applied to the aspirin/warfarin
call. -/
theorem check_interactions_spec_witness :
    ((check_interactions "aspirin" ["warfarin"] []).safe_to_prescribe = false ↔
      ∃ w ∈ (check_interactions "aspirin" ["warfarin"] []).warnings,
        w.severity = "CRITICAL") ∧
    ((check_interactions "aspirin" ["warfarin"] []).has_interactions = true ↔
      (check_interactions "aspirin" ["warfarin"] []).warnings ≠ []) :=
  check_interactions_spec.1 "aspirin" ["warfarin"] []

/-- C5: a recognized test value strictly below the range minimum is flagged
LOW and strictly above the maximum HIGH (in-range values produce nothing),
with severity CRITICAL when the relative deviation exceeds 0.5, MODERATE
when it exceeds 0.2 and MILD otherwise. -/
theorem lab_abnormal_flag_and_severity
    (testKey : String) (r : RefRange) (value : ℚ)
    (hle : r.rmin ≤ r.rmax) (hr : findRange testKey = some r) :
    (value < r.rmin →
      checkAbnormal testKey value =
        some ⟨r.name, value, r.unit, "LOW",
          if (r.rmin - value) / r.rmin > 0.5 then "CRITICAL"
          else if (r.rmin - value) / r.rmin > 0.2 then "MODERATE" else "MILD"⟩) ∧
    (value > r.rmax →
      checkAbnormal testKey value =
        some ⟨r.name, value, r.unit, "HIGH",
          if (value - r.rmax) / r.rmax > 0.5 then "CRITICAL"
          else if (value - r.rmax) / r.rmax > 0.2 then "MODERATE" else "MILD"⟩) ∧
    (r.rmin ≤ value → value ≤ r.rmax → checkAbnormal testKey value = none) := by
  refine ⟨?_, ?_, ?_⟩
  · intro h
    simp [checkAbnormal, hr, getSeverity, h]
  · intro h
    have h1 : ¬ (value < r.rmin) := not_lt.mpr (le_trans hle (le_of_lt h))
    simp [checkAbnormal, hr, getSeverity, h, h1]
  · intro h1 h2
    simp [checkAbnormal, hr, not_lt.mpr h1, not_lt.mpr h2]

/-- C5 witness: glucose 250 against range 70–100 is HIGH with relative
deviation 1.5, hence CRITICAL; glucose 110 has deviation 0.1, hence
MILD. -/
theorem lab_abnormal_flag_and_severity_witness :
    checkAbnormal "glucose" 250 = some ⟨"Glucose", 250, "mg/dL", "HIGH", "CRITICAL"⟩ ∧
      ((250 : ℚ) - 100) / 100 = 1.5 ∧
      checkAbnormal "glucose" 110 = some ⟨"Glucose", 110, "mg/dL", "HIGH", "MILD"⟩ ∧
      ((110 : ℚ) - 100) / 100 = 0.1 := by
  have hr : findRange "glucose" = some ⟨70, 100, "mg/dL", "Glucose"⟩ := rfl
  have h1 := (lab_abnormal_flag_and_severity "glucose" ⟨70, 100, "mg/dL", "Glucose"⟩
    250 (by norm_num) hr).2.1 (by norm_num)
  have h2 := (lab_abnormal_flag_and_severity "glucose" ⟨70, 100, "mg/dL", "Glucose"⟩
    110 (by norm_num) hr).2.1 (by norm_num)
  refine ⟨?_, by norm_num, ?_, by norm_num⟩
  · rw [h1]; norm_num
  · rw [h2]; norm_num

/-- C6: confidence-level classification of a differential-diagnoses list:
top confidence at least 0.75 is "High", at least 0.5 but below 0.75 is
"Medium", below 0.5 is "Low", and the empty list is "Low". -/
theorem confidence_level_thresholds (rest : List DDEntry) (top : DDEntry) (c : ℚ) :
    calculateConfidenceLevel [] = "Low" ∧
    (top.confidence = some c →
      (c ≥ 0.75 → calculateConfidenceLevel (top :: rest) = "High") ∧
      (0.5 ≤ c → c < 0.75 → calculateConfidenceLevel (top :: rest) = "Medium") ∧
      (c < 0.5 → calculateConfidenceLevel (top :: rest) = "Low")) := by
  refine ⟨rfl, fun hc => ⟨?_, ?_, ?_⟩⟩
  · intro h
    simp [calculateConfidenceLevel, hc, h]
  · intro h1 h2
    simp [calculateConfidenceLevel, hc, h1, not_le.mpr h2]
  · intro h
    have h2 : ¬ ((0.75 : ℚ) ≤ c) := not_le.mpr (lt_trans h (by norm_num))
    simp [calculateConfidenceLevel, hc, not_le.mpr h, h2]

/-- C6 witness: 0.80 classifies "High", 0.60 "Medium", 0.40 "Low". -/
theorem confidence_level_thresholds_witness :
    calculateConfidenceLevel [⟨"dx1", some 0.8⟩] = "High" ∧
      calculateConfidenceLevel [⟨"dx2", some 0.6⟩] = "Medium" ∧
      calculateConfidenceLevel [⟨"dx3", some 0.4⟩] = "Low" :=
  ⟨((confidence_level_thresholds [] ⟨"dx1", some 0.8⟩ 0.8).2 rfl).1 (by norm_num),
   ((confidence_level_thresholds [] ⟨"dx2", some 0.6⟩ 0.6).2 rfl).2.1
     (by norm_num) (by norm_num),
   ((confidence_level_thresholds [] ⟨"dx3", some 0.4⟩ 0.4).2 rfl).2.2 (by norm_num)⟩

/-- C7: the diagnosis-search confidence filter selects rows by literal
substring matching on the serialized differential-diagnoses JSON (High:
contains `"confidence": 0.7`; Medium: contains `"confidence": 0.5` and not
`"confidence": 0.7`; Low: lacks `"confidence": 0.5`); consequently a stored
diagnosis with top confidence 0.85 — classified "High" — is not returned by
the High filter, whose substring only matches confidences starting with the
0.7 prefix. -/
theorem confidence_filter_literal_substring :
    (∀ s, confidenceLevelFilter "High" s = strContains s "\"confidence\": 0.7") ∧
    (∀ s, confidenceLevelFilter "Medium" s =
      (strContains s "\"confidence\": 0.5" && !strContains s "\"confidence\": 0.7")) ∧
    (∀ s, confidenceLevelFilter "Low" s = !strContains s "\"confidence\": 0.5") ∧
    calculateConfidenceLevel [⟨"Influenza", some 0.85⟩] = "High" ∧
    serializeDifferentials [("Influenza", 85)] =
      "[\x7b\"diagnosis\": \"Influenza\", \"confidence\": 0.85\x7d]" ∧
    confidenceLevelFilter "High" (serializeDifferentials [("Influenza", 85)]) = false := by
  refine ⟨fun s => rfl, fun s => rfl, fun s => rfl, ?_, by decide, by decide⟩
  norm_num [calculateConfidenceLevel]

/-- C8: the rate limiter allows the first request in a window (counter set
to 1 with a window-length expiry), allows and increments while the counter
is below the maximum, denies once it has reached the maximum — with
max 100, 100 consecutive requests succeed and the 101st is denied — and
fails open on any internal error. -/
theorem rate_limiter_fixed_window (maxRequests window c t : Nat) :
    isAllowed maxRequests window RedisState.down = (true, RedisState.down) ∧
    isAllowed maxRequests window (RedisState.ok none) =
      (true, RedisState.ok (some (1, window))) ∧
    (c < maxRequests →
      isAllowed maxRequests window (RedisState.ok (some (c, t))) =
        (true, RedisState.ok (some (c + 1, t)))) ∧
    (maxRequests ≤ c →
      isAllowed maxRequests window (RedisState.ok (some (c, t))) =
        (false, RedisState.ok (some (c, t)))) ∧
    (runRequests 100 60 101 (RedisState.ok none)).1 =
      List.replicate 100 true ++ [false] := by
  refine ⟨rfl, rfl, ?_, ?_, by decide⟩
  · intro h
    simp [isAllowed, Nat.not_le.mpr h]
  · intro h
    simp [isAllowed, h]

/-- C8 witness: below the maximum the counter increments and the request is
allowed; at the maximum the request is denied. -/
theorem rate_limiter_fixed_window_witness :
    isAllowed 100 60 (RedisState.ok (some (5, 60))) =
        (true, RedisState.ok (some (6, 60))) ∧
      isAllowed 100 60 (RedisState.ok (some (100, 60))) =
        (false, RedisState.ok (some (100, 60))) :=
  ⟨(rate_limiter_fixed_window 100 60 5 60).2.2.1 (by decide),
   (rate_limiter_fixed_window 100 60 100 60).2.2.2.1 (by decide)⟩

/-- C9: the comparison endpoint's overall trend is "improving" when
resolved-symptom events outnumber new-symptom events across consecutive
pairs, "worsening" in the reverse case, and "stable" otherwise (including
no events at all); two diagnoses where the second lost two symptoms and
gained none give "improving", and the reverse give "worsening". -/
theorem diagnosis_trend_classification (diagnoses : List (List String)) :
    (((symptomChangeEvents diagnoses).filter fun e => e == "resolved").length >
        ((symptomChangeEvents diagnoses).filter fun e => e == "new").length →
      overallTrend diagnoses = "improving") ∧
    (((symptomChangeEvents diagnoses).filter fun e => e == "new").length >
        ((symptomChangeEvents diagnoses).filter fun e => e == "resolved").length →
      overallTrend diagnoses = "worsening") ∧
    (((symptomChangeEvents diagnoses).filter fun e => e == "resolved").length =
        ((symptomChangeEvents diagnoses).filter fun e => e == "new").length →
      overallTrend diagnoses = "stable") ∧
    overallTrend [["fever", "cough", "fatigue"], ["fever"]] = "improving" ∧
    overallTrend [["fever"], ["fever", "cough", "fatigue"]] = "worsening" := by
  have hres := List.length_filter_le (fun e => e == "resolved") (symptomChangeEvents diagnoses)
  have hnew := List.length_filter_le (fun e => e == "new") (symptomChangeEvents diagnoses)
  refine ⟨?_, ?_, ?_, by decide, by decide⟩ <;> intro h <;>
    simp only [overallTrend] <;> split_ifs <;> first | rfl | omega

/-- C9 witness: the improving-trend case applied to the two-diagnosis
example where two symptoms resolved and none appeared. -/
theorem diagnosis_trend_classification_witness :
    overallTrend [["fever", "cough", "fatigue"], ["fever"]] = "improving" :=
  (diagnosis_trend_classification [["fever", "cough", "fatigue"], ["fever"]]).1
    (by decide)

/-- C10: the only reference-table test whose display name contains "ALT" is
"ALT" itself, and for an ALT abnormality the clinical interpretation is the
elevated-liver-enzymes sentence whatever the status — in particular the
below-range ALT value 5 (status LOW) is reported as elevated liver
enzymes. -/
theorem alt_abnormality_always_reports_elevated
    (value : ℚ) (unit status severity : String) :
    (∀ e ∈ REFERENCE_RANGES, strContains e.2.name "ALT" = true → e.2.name = "ALT") ∧
    getClinicalInterpretation [⟨"ALT", value, unit, status, severity⟩] =
      "Elevated liver enzymes suggest hepatic dysfunction" ∧
    (∃ a, checkAbnormal "alt" 5 = some a ∧ a.status = "LOW" ∧
      getClinicalInterpretation [a] =
        "Elevated liver enzymes suggest hepatic dysfunction") := by
  refine ⟨by decide, ?_, ?_⟩
  · simp +decide [getClinicalInterpretation, interpretAbnormality]
  · refine ⟨⟨"ALT", 5, "U/L", "LOW", "MODERATE"⟩, ?_, rfl, rfl⟩
    have h : findRange "alt" = some ⟨7, 56, "U/L", "ALT"⟩ := rfl
    have hs : (("low" : String) = "low") = True := by simp
    norm_num [checkAbnormal, h, getSeverity, hs]

/-- C10 witness: the ALT/LOW case of the interpretation, and the
reference-table fact applied to the "alt" entry. -/
theorem alt_abnormality_always_reports_elevated_witness :
    getClinicalInterpretation [⟨"ALT", 5, "U/L", "LOW", "MODERATE"⟩] =
        "Elevated liver enzymes suggest hepatic dysfunction" ∧
      (("alt", ⟨7, 56, "U/L", "ALT"⟩) : String × RefRange).2.name = "ALT" :=
  ⟨(alt_abnormality_always_reports_elevated 5 "U/L" "LOW" "MODERATE").2.1,
   (alt_abnormality_always_reports_elevated 5 "U/L" "LOW" "MODERATE").1
     ("alt", ⟨7, 56, "U/L", "ALT"⟩) (by decide) (by decide)⟩

end CDSS
